import Mathlib

/-!
Verification development for the FitCheck mobile client (src/App.js).

The client logic is embedded shallowly: each JavaScript helper that a claim
touches becomes a Lean definition with the same name where possible, and the
response-handling tail of each network handler becomes a pure step function
from the pre-request state and the HTTP response to the post-response state
and user-visible effects.
-/

/-- Whitespace test matching the JavaScript regex class \s and the characters
String.prototype.trim removes, restricted to the ASCII range that the client
strings use: space, tab, line feed, carriage return, vertical tab, form feed. -/
def jsWhitespace (c : Char) : Bool :=
  c = ' ' || c = '\t' || c = '\n' || c = '\r' || c = Char.ofNat 11 || c = Char.ofNat 12

/-- Embedding of JavaScript String.prototype.trim: drop whitespace characters
from both ends of the string. -/
def jsTrim (s : String) : String :=
  ⟨((s.data.dropWhile jsWhitespace).reverse.dropWhile jsWhitespace).reverse⟩

/-- Embedding of the JavaScript expression a || b for string-or-missing values:
a missing (null/undefined) or empty string is falsy and yields the default. -/
def jsOrStr (v : Option String) (d : String) : String :=
  match v with
  | some s => if s = "" then d else s
  | none => d

/-- Helper for normalizeWs: copy the character list, replacing each maximal
run of whitespace by a single space; the flag records whether the previous
character was part of a whitespace run. -/
def squashWsAux : List Char → Bool → List Char
  | [], _ => []
  | c :: rest, prevWs =>
    if jsWhitespace c then
      if prevWs then squashWsAux rest true
      else ' ' :: squashWsAux rest true
    else c :: squashWsAux rest false

/-- Embedding of the JavaScript expression s.replace(/\s+/g, " "): every
maximal run of whitespace becomes a single space. -/
def normalizeWs (s : String) : String :=
  ⟨squashWsAux s.data false⟩

/-- Embedding of JavaScript String.prototype.split on a character class: the
text is cut at every delimiter character, keeping empty pieces; the
accumulator holds the current piece reversed. -/
def splitOnDelims (delim : Char → Bool) : List Char → List Char → List String
  | [], acc => [⟨acc.reverse⟩]
  | c :: rest, acc =>
    if delim c then ⟨acc.reverse⟩ :: splitOnDelims delim rest []
    else splitOnDelims delim rest (c :: acc)

/-- Embedding of the reasonPoints memo in RecommendationResultScreen
(src/App.js lines 776-781): an empty rationale gives no notes; otherwise the
rationale is whitespace-normalized, trimmed, split on every period or
semicolon, each part trimmed, empty parts dropped, and the list truncated to
its first six entries. -/
def reasonPoints (overallReason : String) : List String :=
  if overallReason = "" then []
  else
    let trimmed := jsTrim (normalizeWs overallReason)
    let parts := (splitOnDelims (fun c => c = '.' || c = ';') trimmed.data []).map jsTrim
    (parts.filter (fun p => p.length > 0)).take 6

/-- Wardrobe item record as received from the backend (src/App.js data model):
every descriptive field may be absent. -/
structure WardrobeItem where
  image_url : String := ""
  name : Option String := none
  category : Option String := none
  color : Option String := none
  material : Option String := none
  texture : Option String := none
  formality : Option String := none
  reason : Option String := none
deriving DecidableEq

/-- Embedding of the label expression shared by renderGridItem (lines 227-233),
ItemDetailScreen (lines 292-297) and OutfitCard (lines 721-726):
item.name || `(item.color || "") (item.category || "item")`.trim() || "Item". -/
def itemLabel (item : WardrobeItem) : String :=
  let nameVal := jsOrStr item.name ""
  let colorCat := jsTrim (jsOrStr item.color "" ++ " " ++ jsOrStr item.category "item")
  if nameVal = "" then
    if colorCat = "" then "Item" else colorCat
  else nameVal

/-- Process-wide session state of the App component (src/App.js lines 858-868):
the in-memory React token state and the value persisted in local storage under
the key "token" (none when the key is absent). -/
structure AppState where
  token : Option String
  storedToken : Option String
deriving DecidableEq

/-- Top-level navigation stacks; the navigator shows the authenticated screens
exactly when the token is non-null (src/App.js lines 913-931). -/
inductive NavStack
  | unauthenticated
  | authenticated
deriving DecidableEq

/-- Stack selection from the session state: token present gives the
authenticated stack, token absent gives the login stack. -/
def navStack (s : AppState) : NavStack :=
  match s.token with
  | some _ => NavStack.authenticated
  | none => NavStack.unauthenticated

/-- Embedding of signOut (src/App.js lines 902-905): the in-memory token is
set to null and the stored "token" key is removed, regardless of the previous
state. -/
def signOut (_s : AppState) : AppState :=
  { token := none, storedToken := none }

/-- Embedding of the fetch Response.ok predicate: status in the range 200-299. -/
def respOk (status : Nat) : Bool :=
  200 ≤ status && status ≤ 299

/-- Parsed JSON body shapes a GET /items response can take
(src/App.js line 203): a JSON array, an object whose items field may be
absent, or a body that fails to parse as JSON. -/
inductive ItemsBody
  | jsonArray (items : List WardrobeItem)
  | jsonObject (items : Option (List WardrobeItem))
  | malformed
deriving DecidableEq

/-- Embedding of Array.isArray(data) ? data : data.items || []. -/
def parseItemsBody : ItemsBody → List WardrobeItem
  | ItemsBody.jsonArray l => l
  | ItemsBody.jsonObject (some l) => l
  | ItemsBody.jsonObject none => []
  | ItemsBody.malformed => []

/-- Outcome of one fetchItems call: the session state afterwards, the item
list placed in component state when parsing succeeded, and the alert shown. -/
structure FetchItemsOutcome where
  state : AppState
  shownItems : Option (List WardrobeItem)
  alert : Option String
deriving DecidableEq

/-- Embedding of the response handling of fetchItems in WardrobeScreen
(src/App.js lines 190-212): a 401 status alerts "Session expired" and signs
out before the body is read; otherwise the body is parsed into the item list,
and a malformed body alerts "Error fetching items" leaving state unchanged. -/
def fetchItemsStep (s : AppState) (status : Nat) (body : ItemsBody) : FetchItemsOutcome :=
  if status = 401 then
    { state := signOut s, shownItems := none, alert := some "Session expired" }
  else
    match body with
    | ItemsBody.malformed => { state := s, shownItems := none, alert := some "Error fetching items" }
    | b => { state := s, shownItems := some (parseItemsBody b), alert := none }

/-- Outcome of one delete or upload call: session state afterwards, whether
the screen navigated back, and the alert shown (title, message). -/
structure MutationOutcome where
  state : AppState
  goBack : Bool
  alert : Option (String × String)
deriving DecidableEq

/-- Embedding of the response handling of handleDelete in ItemDetailScreen
(src/App.js lines 299-326): a non-2xx status throws "Delete failed" which is
alerted; the session state is never touched. -/
def handleDeleteStep (s : AppState) (status : Nat) : MutationOutcome :=
  if respOk status then
    { state := s, goBack := true, alert := none }
  else
    { state := s, goBack := false, alert := some ("Delete failed", "Delete failed") }

/-- Embedding of the response handling of handlePhotoUpload in AddItemScreen
(src/App.js lines 394-409): a non-2xx status throws the response text (or
"Upload failed" when that text is empty) which is alerted under the title
"Error"; the session state is never touched. -/
def handlePhotoUploadStep (s : AppState) (status : Nat) (errText : String) : MutationOutcome :=
  if respOk status then
    { state := s, goBack := true, alert := some ("Saved!", "Item added successfully.") }
  else
    { state := s, goBack := false,
      alert := some ("Error", if errText = "" then "Upload failed" else errText) }

/-- Parsed JSON body of an outfit recommendation response
(src/App.js lines 506-514): every field may be absent. -/
structure OutfitResponse where
  error : Option String := none
  selected_items : Option (List WardrobeItem) := none
  overall_reason : Option String := none
  weather_summary : Option String := none
  weather_warning : Option String := none
deriving DecidableEq

/-- Navigation parameters carried to RecommendationResultScreen
(src/App.js lines 509-514). -/
structure ResultParams where
  outfit : List WardrobeItem
  overallReason : String
  weatherSummary : String
  weatherWarning : String
deriving DecidableEq

/-- Embedding of the JavaScript expression data.selected_items || []: an
absent field yields the empty list. -/
def jsOrItems (v : Option (List WardrobeItem)) : List WardrobeItem :=
  match v with
  | some l => l
  | none => []

/-- Outcome of one recommendation call: session state afterwards, the result
screen parameters when navigation happened, and the alert shown. -/
structure RecommendOutcome where
  state : AppState
  navigateTo : Option ResultParams
  alert : Option (String × String)
deriving DecidableEq

/-- Shared response handling of the three recommendation handlers: a 2xx
status navigates to the result screen with defaulted fields; otherwise the
error field (or "Request failed") is alerted under the given title; the
session state is never touched. -/
def recommendStep (alertTitle : String) (s : AppState) (status : Nat)
    (resp : OutfitResponse) : RecommendOutcome :=
  if respOk status then
    { state := s,
      navigateTo := some
        { outfit := jsOrItems resp.selected_items,
          overallReason := jsOrStr resp.overall_reason "",
          weatherSummary := jsOrStr resp.weather_summary "",
          weatherWarning := jsOrStr resp.weather_warning "" },
      alert := none }
  else
    { state := s, navigateTo := none,
      alert := some (alertTitle, jsOrStr resp.error "Request failed") }

/-- Embedding of the response handling of generateFromPrompt
(src/App.js lines 487-521): failures alert under the title "Failed". -/
def generateFromPromptStep (s : AppState) (status : Nat) (resp : OutfitResponse) : RecommendOutcome :=
  recommendStep "Failed" s status resp

/-- Embedding of the response handling of handleWardrobeSelection
(src/App.js lines 523-564): failures alert under the title "Error". -/
def handleWardrobeSelectionStep (s : AppState) (status : Nat) (resp : OutfitResponse) : RecommendOutcome :=
  recommendStep "Error" s status resp

/-- Embedding of the response handling of handleLaunchCamera
(src/App.js lines 566-622): failures alert under the title "Failed". -/
def handleLaunchCameraStep (s : AppState) (status : Nat) (resp : OutfitResponse) : RecommendOutcome :=
  recommendStep "Failed" s status resp

/-- Outcome of one sign-in or sign-up call: session state afterwards and the
alert title shown on failure. -/
structure AuthOutcome where
  state : AppState
  alert : Option String
deriving DecidableEq

/-- Embedding of the response handling of signIn (src/App.js lines 872-886):
a body whose access_token field is absent or empty throws "Login failed",
which is alerted, leaving the session state untouched; otherwise the token is
persisted under the "token" key and set in memory. -/
def signInStep (s : AppState) (access_token : Option String) : AuthOutcome :=
  match access_token with
  | some t =>
    if t = "" then { state := s, alert := some "Login failed" }
    else { state := { token := some t, storedToken := some t }, alert := none }
  | none => { state := s, alert := some "Login failed" }

/-- Embedding of the response handling of signUp (src/App.js lines 887-901):
identical to signIn except the alert title "Signup failed". -/
def signUpStep (s : AppState) (access_token : Option String) : AuthOutcome :=
  match access_token with
  | some t =>
    if t = "" then { state := s, alert := some "Signup failed" }
    else { state := { token := some t, storedToken := some t }, alert := none }
  | none => { state := s, alert := some "Signup failed" }

/-- The backend base URL constant (src/App.js line 36). -/
def BACKEND_URL : String := "http://10.228.248.210:8000"

/-- The seven backend operations the client issues (src/App.js fetch calls). -/
inductive ApiOp
  | login
  | signup
  | listItems
  | addItem
  | deleteItem
  | recommendFromPrompt
  | recommendFromImage
deriving DecidableEq

/-- Path appended to BACKEND_URL for each operation, read off the fetch call
of each handler. -/
def opPath : ApiOp → String
  | ApiOp.login => "/token"
  | ApiOp.signup => "/signup"
  | ApiOp.listItems => "/items"
  | ApiOp.addItem => "/add-item"
  | ApiOp.deleteItem => "/delete-item"
  | ApiOp.recommendFromPrompt => "/outfit/from-prompt"
  | ApiOp.recommendFromImage => "/outfit/from-image"

/-- Full request URL of each operation, as built by the template literals in
src/App.js. -/
def opUrl (op : ApiOp) : String :=
  BACKEND_URL ++ opPath op

/-- Scheme test on a URL string: does it start with the given scheme text. -/
def hasScheme (u : String) (scheme : String) : Bool :=
  scheme.data.isPrefixOf u.data

/-- Embedding of validate in LoginScreen (src/App.js lines 86-92): both
fields must be non-empty after trimming; otherwise the blocking prompt
"Enter username and password" is shown and validation fails. -/
def validate (username password : String) : Bool :=
  !(jsTrim username = "") && !(jsTrim password = "")

/-- What a press on the Login or Sign Up button produces: either a local
blocking prompt with no request, or a request to the given endpoint with the
trimmed credentials. -/
inductive LoginPressResult
  | blockedPrompt (message : String)
  | request (endpoint : ApiOp) (username password : String)
deriving DecidableEq

/-- Embedding of the Login button handler (src/App.js lines 115-124): a
failed validate returns before signIn is invoked; otherwise signIn is called
with the trimmed fields. -/
def loginButtonPress (username password : String) : LoginPressResult :=
  if validate username password then
    LoginPressResult.request ApiOp.login (jsTrim username) (jsTrim password)
  else
    LoginPressResult.blockedPrompt "Enter username and password"

/-- Embedding of the Sign Up button handler (src/App.js lines 125-135): a
failed validate returns before signUp is invoked; otherwise signUp is called
with the trimmed fields. -/
def signUpButtonPress (username password : String) : LoginPressResult :=
  if validate username password then
    LoginPressResult.request ApiOp.signup (jsTrim username) (jsTrim password)
  else
    LoginPressResult.blockedPrompt "Enter username and password"

/-- Whether a button press result reaches the network. -/
def pressTouchesNetwork : LoginPressResult → Bool
  | LoginPressResult.blockedPrompt _ => false
  | LoginPressResult.request _ _ _ => true

/-- Embedding of route.params?.selectionMode || false in WardrobeScreen
(src/App.js line 188). -/
def wardrobeSelectionMode (param : Option Bool) : Bool :=
  match param with
  | some b => b
  | none => false

/-- Navigation target of a tap on a wardrobe grid item. -/
inductive WardrobeNavTarget
  | recommendations (selectedWardrobeItem : WardrobeItem)
  | itemDetail (item : WardrobeItem)
deriving DecidableEq

/-- Embedding of handleItemPress in WardrobeScreen (src/App.js lines
219-225): in selection mode the tap navigates to the Recommendations screen
carrying the item; otherwise it opens the item-detail screen. -/
def handleItemPress (isSelectionMode : Bool) (item : WardrobeItem) : WardrobeNavTarget :=
  if isSelectionMode then WardrobeNavTarget.recommendations item
  else WardrobeNavTarget.itemDetail item

/-- Whether the Add Item button is rendered on the wardrobe screen
(src/App.js lines 273-280): only outside selection mode. -/
def addItemButtonShown (isSelectionMode : Bool) : Bool :=
  !isSelectionMode

/-- JSON body of a POST /outfit/from-prompt request; the coordinate type is a
parameter because the client passes device floats through untouched. -/
structure FromPromptRequest (Coord : Type) where
  prompt : String
  base_image_url : Option String := none
  lat : Option Coord := none
  lon : Option Coord := none

/-- Embedding of the request body built by handleWardrobeSelection
(src/App.js lines 527-535): the selected wardrobe item's image URL is sent as
base_image_url alongside the current prompt and any known coordinates. -/
def handleWardrobeSelectionRequest {Coord : Type} (prompt : String) (item : WardrobeItem)
    (coords : Option (Coord × Coord)) : FromPromptRequest Coord :=
  { prompt := prompt,
    base_image_url := some item.image_url,
    lat := coords.map Prod.fst,
    lon := coords.map Prod.snd }

/-- Multipart form fields of a POST /add-item request. -/
structure AddItemForm where
  fileName : String
  name : String
deriving DecidableEq

/-- Embedding of the form built by handlePhotoUpload (src/App.js lines
385-392): the file part is always named "photo.jpg" and the name field is
name.trim() || "Unnamed". -/
def addItemForm (name : String) : AddItemForm :=
  { fileName := "photo.jpg",
    name := jsOrStr (some (jsTrim name)) "Unnamed" }

/-- Discriminator for the item-detail navigation target. -/
def navTargetIsItemDetail : WardrobeNavTarget → Bool
  | WardrobeNavTarget.itemDetail _ => true
  | WardrobeNavTarget.recommendations _ => false

/-- Helper: a nonempty dropWhile result starts with a character failing the
predicate, so not every character of it (reversed) satisfies the predicate. -/
theorem list_dropWhile_not_all (p : Char → Bool) (l : List Char)
    (h : l.dropWhile p ≠ []) : (l.dropWhile p).reverse.all p = false := by
  have hh := List.head_dropWhile_not p l h
  have hmem : (l.dropWhile p).head h ∈ (l.dropWhile p).reverse := by
    rw [List.mem_reverse]
    exact List.head_mem h
  cases hall : (l.dropWhile p).reverse.all p with
  | false => rfl
  | true =>
    rw [List.all_eq_true] at hall
    have hc := hall _ hmem
    rw [hh] at hc
    exact Bool.noConfusion hc

/-- Helper: a nonempty trimmed string is never whitespace-only. -/
theorem jsTrim_not_all_whitespace (s : String) (h : jsTrim s ≠ "") :
    (jsTrim s).data.all jsWhitespace = false := by
  have hne : (s.data.dropWhile jsWhitespace).reverse.dropWhile jsWhitespace ≠ [] := by
    intro hnil
    apply h
    show (⟨((s.data.dropWhile jsWhitespace).reverse.dropWhile jsWhitespace).reverse⟩ : String) = ""
    rw [hnil]
    rfl
  exact list_dropWhile_not_all jsWhitespace _ hne

/-- C1 counterexample: for the record with name, color and category all
absent, the shared label expression evaluates to "item" (the lower-case
default that `item.category || "item"` supplies), not to the "Item" fallback
the claim states, which is reachable only when the middle branch trims to the
empty string. -/
theorem c1_label_all_absent_counterexample :
    itemLabel {} = "item" ∧ itemLabel {} ≠ "Item" := by
  exact ⟨rfl, by decide⟩

/-- C1 (amended): for every record, a present non-empty name is the label;
otherwise (name absent or empty) the label is the trimmed
"{color-or-''} {category-or-'item'}" string when that string is non-blank,
and "Item" only when it is blank; in particular a record with name, color and
category all absent gets the label "item", while
{name: null, color: "blue", category: "shirt"} still yields "blue shirt". -/
theorem c1_label_fallback_amended (it : WardrobeItem) :
    (∀ n, it.name = some n → n ≠ "" → itemLabel it = n) ∧
    ((it.name = none ∨ it.name = some "") →
      (jsTrim (jsOrStr it.color "" ++ " " ++ jsOrStr it.category "item") = "" →
        itemLabel it = "Item") ∧
      (jsTrim (jsOrStr it.color "" ++ " " ++ jsOrStr it.category "item") ≠ "" →
        itemLabel it = jsTrim (jsOrStr it.color "" ++ " " ++ jsOrStr it.category "item"))) ∧
    itemLabel { name := none, color := some "blue", category := some "shirt" } = "blue shirt" ∧
    itemLabel {} = "item" := by
  refine ⟨?_, ?_, rfl, rfl⟩
  · intro n hn hne
    simp [itemLabel, jsOrStr, hn, hne]
  · intro h
    have hnv : jsOrStr it.name "" = "" := by
      rcases h with h | h <;> simp [jsOrStr, h]
    constructor
    · intro hc
      simp [itemLabel, hnv, hc]
    · intro hc
      simp [itemLabel, hnv, hc]

/-- C1 witness: the amended fallback theorem applied at a named record, a
color-only record (middle branch), and a whitespace-category record, the one
way the "Item" fallback is reached. -/
theorem c1_label_fallback_amended_witness :
    itemLabel { name := some "Hat" } = "Hat" ∧
    itemLabel { color := some "red" } = "red item" ∧
    itemLabel { category := some " " } = "Item" ∧
    itemLabel { name := none, color := some "blue", category := some "shirt" } = "blue shirt" ∧
    itemLabel {} = "item" := by
  refine ⟨?_, ?_, ?_, rfl, rfl⟩
  · exact (c1_label_fallback_amended { name := some "Hat" }).1 "Hat" rfl (by decide)
  · exact ((c1_label_fallback_amended { color := some "red" }).2.1 (Or.inl rfl)).2 (by decide)
  · exact ((c1_label_fallback_amended { category := some " " }).2.1 (Or.inl rfl)).1 (by decide)

/-- C2 counterexample: a 401 response to the delete-item call leaves the
session token in place and the navigation state authenticated; only a generic
"Delete failed" alert is shown, so a 401 does not force sign-out on every
authenticated call. -/
theorem c2_delete_401_counterexample :
    (handleDeleteStep { token := some "tok", storedToken := some "tok" } 401).state.token
      = some "tok" ∧
    navStack (handleDeleteStep { token := some "tok", storedToken := some "tok" } 401).state
      = NavStack.authenticated ∧
    (handleDeleteStep { token := some "tok", storedToken := some "tok" } 401).alert
      = some ("Delete failed", "Delete failed") := by
  decide

/-- C2 (amended): only the list-items call reacts to a 401 by signing out
(token nulled, stored token removed, unauthenticated stack shown); the
delete, add-item and all three recommendation handlers treat a 401 like any
other failure and leave the session state untouched. -/
theorem c2_only_items_call_signs_out_amended (s : AppState) (body : ItemsBody)
    (errText : String) (resp : OutfitResponse) :
    (fetchItemsStep s 401 body).state = { token := none, storedToken := none } ∧
    navStack (fetchItemsStep s 401 body).state = NavStack.unauthenticated ∧
    (handleDeleteStep s 401).state = s ∧
    (handlePhotoUploadStep s 401 errText).state = s ∧
    (generateFromPromptStep s 401 resp).state = s ∧
    (handleWardrobeSelectionStep s 401 resp).state = s ∧
    (handleLaunchCameraStep s 401 resp).state = s :=
  ⟨rfl, rfl, rfl, rfl, rfl, rfl, rfl⟩

/-- C3 counterexample: the configured base URL, and hence the list-items
request URL, does not use the https scheme. -/
theorem c3_https_counterexample :
    hasScheme BACKEND_URL "https://" = false ∧
    hasScheme (opUrl ApiOp.listItems) "https://" = false := by
  decide

/-- C3 (amended): every API client operation is issued against the single
build-time base URL http://10.228.248.210:8000, so every request URL carries
the plain http scheme, not https. -/
theorem c3_http_base_url_amended (op : ApiOp) :
    opUrl op = BACKEND_URL ++ opPath op ∧
    hasScheme (opUrl op) "http://" = true ∧
    hasScheme (opUrl op) "https://" = false := by
  cases op <;> exact ⟨rfl, rfl, rfl⟩

/-- C4 (confirmed): a 401 response from GET /items nulls the in-memory token,
removes the stored "token" value, and selects the unauthenticated stack,
whatever the prior state and response body. -/
theorem c4_items_401_signs_out (s : AppState) (body : ItemsBody) :
    (fetchItemsStep s 401 body).state.token = none ∧
    (fetchItemsStep s 401 body).state.storedToken = none ∧
    navStack (fetchItemsStep s 401 body).state = NavStack.unauthenticated ∧
    (fetchItemsStep s 401 body).alert = some "Session expired" :=
  ⟨rfl, rfl, rfl, rfl⟩

/-- C5 (confirmed): a sign-in or sign-up response body lacking the
access_token field leaves the whole session state unchanged (token and
stored token included) and surfaces an error notice. -/
theorem c5_missing_access_token_no_session (s : AppState) :
    (signInStep s none).state = s ∧
    (signInStep s none).alert = some "Login failed" ∧
    (signUpStep s none).state = s ∧
    (signUpStep s none).alert = some "Signup failed" :=
  ⟨rfl, rfl, rfl, rfl⟩

/-- C6 (confirmed): the spec's example rationale splits into exactly the
three expected notes, each already trimmed and non-empty. -/
theorem c6_reason_points_example :
    reasonPoints "Great for warm weather. Breathable fabric; casual fit." =
      ["Great for warm weather", "Breathable fabric", "casual fit"] ∧
    (reasonPoints "Great for warm weather. Breathable fabric; casual fit.").length = 3 ∧
    (reasonPoints "Great for warm weather. Breathable fabric; casual fit.").all
      (fun p => jsTrim p == p && p != "") = true := by
  exact ⟨rfl, rfl, by decide⟩

/-- C7 (confirmed): when either credential trims to the empty string, both
the Login and the Sign Up button show the local blocking prompt and neither
press reaches the network. -/
theorem c7_blank_fields_block_request (username password : String)
    (h : jsTrim username = "" ∨ jsTrim password = "") :
    loginButtonPress username password
      = LoginPressResult.blockedPrompt "Enter username and password" ∧
    signUpButtonPress username password
      = LoginPressResult.blockedPrompt "Enter username and password" ∧
    pressTouchesNetwork (loginButtonPress username password) = false ∧
    pressTouchesNetwork (signUpButtonPress username password) = false := by
  have hv : validate username password = false := by
    rcases h with h | h <;> simp [validate, h]
  simp [loginButtonPress, signUpButtonPress, hv, pressTouchesNetwork]

/-- C7 witness: the blocking theorem applied to a whitespace-only username. -/
theorem c7_blank_fields_block_request_witness :
    loginButtonPress " " "pw"
      = LoginPressResult.blockedPrompt "Enter username and password" ∧
    signUpButtonPress " " "pw"
      = LoginPressResult.blockedPrompt "Enter username and password" ∧
    pressTouchesNetwork (loginButtonPress " " "pw") = false ∧
    pressTouchesNetwork (signUpButtonPress " " "pw") = false :=
  c7_blank_fields_block_request " " "pw" (Or.inl (by decide))

/-- C8 (confirmed): with selectionMode set, tapping any wardrobe item
navigates to the Recommendations screen carrying that item, never to the
item-detail screen (where the delete action lives), the Add Item button is
not rendered, and the follow-up request carries the item's image URL as
base_image_url. -/
theorem c8_selection_mode_navigation {Coord : Type} (item : WardrobeItem)
    (prompt : String) (coords : Option (Coord × Coord)) :
    handleItemPress (wardrobeSelectionMode (some true)) item
      = WardrobeNavTarget.recommendations item ∧
    navTargetIsItemDetail (handleItemPress (wardrobeSelectionMode (some true)) item) = false ∧
    addItemButtonShown (wardrobeSelectionMode (some true)) = false ∧
    (handleWardrobeSelectionRequest prompt item coords).base_image_url = some item.image_url :=
  ⟨rfl, rfl, rfl, rfl⟩

/-- C9 (confirmed): the derived note list never exceeds six entries, and a
rationale with eight sentence fragments keeps only the first six. -/
theorem c9_reason_points_truncated_to_six (s : String) :
    (reasonPoints s).length ≤ 6 ∧
    reasonPoints "One. Two. Three. Four. Five. Six. Seven. Eight." =
      ["One", "Two", "Three", "Four", "Five", "Six"] := by
  constructor
  · unfold reasonPoints
    split
    · simp
    · simp only [List.length_take]
      omega
  · rfl

/-- C10 (confirmed): the name field sent by the add-item upload is never
empty and never whitespace-only, and a name that trims to the empty string is
sent as the literal "Unnamed". -/
theorem c10_upload_name_never_blank (name : String) :
    (addItemForm name).name ≠ "" ∧
    (addItemForm name).name.data.all jsWhitespace = false ∧
    (jsTrim name = "" → (addItemForm name).name = "Unnamed") := by
  by_cases h : jsTrim name = ""
  · have hn : (addItemForm name).name = "Unnamed" := by
      simp [addItemForm, jsOrStr, h]
    rw [hn]
    exact ⟨by decide, by decide, fun _ => rfl⟩
  · have hn : (addItemForm name).name = jsTrim name := by
      simp [addItemForm, jsOrStr, h]
    rw [hn]
    exact ⟨h, jsTrim_not_all_whitespace name h, fun hc => absurd hc h⟩

/-- C10 witness: the upload-name theorem applied to a whitespace-only name. -/
theorem c10_upload_name_never_blank_witness :
    (addItemForm "   ").name ≠ "" ∧
    (addItemForm "   ").name.data.all jsWhitespace = false ∧
    (addItemForm "   ").name = "Unnamed" := by
  have h := c10_upload_name_never_blank "   "
  exact ⟨h.1, h.2.1, h.2.2 (by decide)⟩
